import Mathlib

/-!
Shallow embedding of the `arogyasuman-ai` backend
(`src/backend/auth_utils.py` and `src/backend/main.py`).

The backend is a FastAPI application with two unprotected routes
(`GET /` and `GET /health`) and two protected routes
(`GET /api/protected` and `GET /api/user/profile`).  Protected routes
depend on `get_current_user`, which depends on `verify_firebase_token`,
which depends on FastAPI's `HTTPBearer` security scheme and on the
Firebase Admin SDK's `verify_id_token`.

Python dictionaries of string claims are embedded as association lists
`List (String × String)`; the dictionary returned by `get_current_user`
(whose values may be `None`) as `List (String × Option String)`.
JSON response bodies are embedded as a small inductive `Json` type.
The process-wide Firebase initialization state is passed explicitly as
an `AppState`; the external identity provider's successful-decode
behaviour is an explicit parameter `Provider`.
-/

namespace Backend

/-- Association-list lookup, modelling Python's `dict.get`: the value at
the first matching key, or `none` when the key is absent. -/
def alistGet {α : Type} : List (String × α) → String → Option α
  | [], _ => none
  | (k', v) :: rest, k => if k' = k then some v else alistGet rest k

/-- Decoded token claims: a string-keyed dictionary of string claim values. -/
abbrev Claims := List (String × String)

/-- The dictionary shape returned by `get_current_user`: the four profile
keys, each bound to a value that may be `None`. -/
abbrev UserDict := List (String × Option String)

/-- Python `dict.get` on the claims dictionary. -/
def dictGet (d : Claims) (k : String) : Option String := alistGet d k

/-- Replace the value at the first occurrence of key `k` (the key is
assumed present; entries with other keys are untouched). -/
def dictReplace : Claims → String → String → Claims
  | [], _, _ => []
  | (k', v') :: rest, k, v =>
      if k' = k then (k, v) :: rest else (k', v') :: dictReplace rest k v

/-- Python dictionary assignment `d[k] = v`: replaces the value in place
when the key exists, otherwise appends the new entry (insertion order). -/
def dictSet (d : Claims) (k v : String) : Claims :=
  if (dictGet d k).isSome then dictReplace d k v else d ++ [(k, v)]

/-- An HTTP error, as FastAPI's `HTTPException`: a status code and a
`detail` message rendered as the JSON body `detail` field. -/
structure HTTPError where
  status_code : Nat
  detail : String
deriving DecidableEq

/-- Process-wide state set by the module-level startup code of
`auth_utils.py`: whether `firebase_admin.initialize_app` was called, and
whether the missing-credentials warning was printed. -/
structure AppState where
  firebaseInitialized : Bool
  warningLogged : Bool
deriving DecidableEq

/-- Startup code of `auth_utils.py` lines 8-13: if the credential file
exists, initialize the Firebase Admin SDK; otherwise print a warning.
Embedded as `Except` to record that neither branch raises. -/
def startup (credFileExists : Bool) : Except String AppState :=
  if credFileExists then Except.ok ⟨true, false⟩ else Except.ok ⟨false, true⟩

/-- The external identity provider's verification outcome for a bearer
token: the decoded claim set on success, or a failure description. -/
abbrev Provider := String → Except String Claims

/-- Modelled from the spec and the Firebase Admin SDK contract (the SDK is
an external collaborator, not part of `src/`): `auth.verify_id_token`
raises when no Firebase app was initialized; otherwise it verifies the
token with the provider, requires a non-empty `sub` claim, and returns
the decoded claims with the `uid` key set to a copy of the `sub` claim. -/
def verify_id_token (st : AppState) (provider : Provider) (token : String) :
    Except String Claims :=
  if st.firebaseInitialized then
    match provider token with
    | Except.error e => Except.error e
    | Except.ok decoded =>
        match dictGet decoded "sub" with
        | none => Except.error "Firebase ID token has no sub claim"
        | some s =>
            if s = "" then Except.error "Firebase ID token has an empty sub claim"
            else Except.ok (dictSet decoded "uid" s)
  else
    Except.error "The default Firebase app does not exist"

/-- `verify_firebase_token` of `auth_utils.py` lines 17-27: given the
bearer token extracted by the security dependency, delegate to
`auth.verify_id_token`; any exception is collapsed into a 401
`HTTPException` whose detail embeds the failure description.  The
function reads the process state and never writes it, so the state is
returned unchanged. -/
def verify_firebase_token (st : AppState) (provider : Provider) (token : String) :
    Except HTTPError Claims × AppState :=
  (match verify_id_token st provider token with
   | Except.ok decoded => Except.ok decoded
   | Except.error e =>
       Except.error ⟨401, "Invalid authentication credentials: " ++ e⟩, st)

/-- Lower-case an ASCII character, as Python's `str.lower` acts on the
ASCII scheme names compared by the bearer check. -/
def lowerChar (c : Char) : Char :=
  if c.toNat ≥ 65 ∧ c.toNat ≤ 90 then Char.ofNat (c.toNat + 32) else c

/-- Lower-case a string character by character. -/
def lowerString (s : String) : String := ⟨s.data.map lowerChar⟩

/-- Split a character list at the first space: the characters before it
and the characters after it (all characters when there is no space). -/
def breakAtSpace : List Char → List Char × List Char
  | [] => ([], [])
  | c :: cs =>
      if c = ' ' then ([], cs)
      else
        let r := breakAtSpace cs
        (c :: r.1, r.2)

/-- Python's `str.partition(" ")` restricted to its first and third
components: the text before the first space, and everything after it. -/
def partitionSpace (s : String) : String × String :=
  let r := breakAtSpace s.data
  (⟨r.1⟩, ⟨r.2⟩)

/-- Modelled from FastAPI's `get_authorization_scheme_param`: split the
`Authorization` header value at the first space into scheme and
parameter; a missing or empty header yields two empty strings. -/
def get_authorization_scheme_param (authorization : Option String) :
    String × String :=
  match authorization with
  | none => ("", "")
  | some v => if v = "" then ("", "") else partitionSpace v

/-- Modelled from FastAPI's `HTTPBearer.__call__` with the default
`auto_error=True` (the `security = HTTPBearer()` dependency of
`auth_utils.py` line 15): a missing header, empty scheme or empty
credentials raise 403 `Not authenticated`; a non-`bearer` scheme raises
403 `Invalid authentication credentials`; otherwise the token after the
scheme is returned. -/
def HTTPBearer_call (authorization : Option String) : Except HTTPError String :=
  let scheme := (get_authorization_scheme_param authorization).1
  let creds := (get_authorization_scheme_param authorization).2
  if authorization.getD "" = "" ∨ scheme = "" ∨ creds = "" then
    Except.error ⟨403, "Not authenticated"⟩
  else if ¬ lowerString scheme = "bearer" then
    Except.error ⟨403, "Invalid authentication credentials"⟩
  else
    Except.ok creds

/-- FastAPI's resolution of the dependency chain
`Depends(security)` → `verify_firebase_token` for one request: run the
bearer scheme on the request's `Authorization` header, then the token
verifier on the extracted token. -/
def resolve_verify (st : AppState) (provider : Provider)
    (authorization : Option String) : Except HTTPError Claims :=
  match HTTPBearer_call authorization with
  | Except.error e => Except.error e
  | Except.ok token => (verify_firebase_token st provider token).1

/-- `get_current_user` of `auth_utils.py` lines 29-36: build the user
dictionary from the decoded token with the four fixed keys, each looked
up with `dict.get` (so a missing claim maps to `None`). -/
def get_current_user (token_data : Claims) : UserDict :=
  [("uid", dictGet token_data "uid"),
   ("email", dictGet token_data "email"),
   ("name", dictGet token_data "name"),
   ("picture", dictGet token_data "picture")]

/-- JSON values occurring in this backend's responses. -/
inductive Json where
  | str (s : String) : Json
  | null : Json
  | obj (fields : List (String × Json)) : Json

/-- Field lookup in a JSON object. -/
def Json.getField : Json → String → Option Json
  | Json.obj fields, k => alistGet fields k
  | _, _ => none

/-- Render an optional string claim as JSON (`None` becomes `null`). -/
def joptField : Option String → Json
  | some v => Json.str v
  | none => Json.null

/-- Render the `get_current_user` dictionary as a JSON object. -/
def jsonOfUser (u : UserDict) : Json :=
  Json.obj (u.map (fun p => (p.1, joptField p.2)))

/-- An HTTP response: status code and JSON body. -/
structure Response where
  status : Nat
  body : Json

/-- Body returned by `read_root` (`main.py` lines 17-19). -/
def read_root : Json := Json.obj [("message", Json.str "HealthScan AI Backend API")]

/-- Body returned by `health_check` (`main.py` lines 21-23). -/
def health_check : Json := Json.obj [("status", Json.str "healthy")]

/-- Body returned by `protected_route` (`main.py` lines 25-30) from the
resolved `current_user` dependency. -/
def protected_route (current_user : UserDict) : Json :=
  Json.obj [("message", Json.str "This is a protected route"),
            ("user", jsonOfUser current_user)]

/-- Body returned by `get_user_profile` (`main.py` lines 32-39): each of
the four fields is read with Python's raising indexing
`current_user["..."]`, so the result is `none` if any key is absent. -/
def get_user_profile (current_user : UserDict) : Option Json :=
  match alistGet current_user "uid", alistGet current_user "email",
        alistGet current_user "name", alistGet current_user "picture" with
  | some u, some e, some n, some p =>
      some (Json.obj [("uid", joptField u), ("email", joptField e),
                      ("name", joptField n), ("picture", joptField p)])
  | _, _, _, _ => none

/-- FastAPI's rendering of a raised `HTTPException` as a response. -/
def errorResponse (e : HTTPError) : Response :=
  ⟨e.status_code, Json.obj [("detail", Json.str e.detail)]⟩

/-- A protected route: resolve the authentication dependency chain;
short-circuit to the error response on failure, otherwise run the
handler on the decoded claims. -/
def routeProtectedWith (handler : Claims → Response) (st : AppState)
    (provider : Provider) (authorization : Option String) : Response :=
  match resolve_verify st provider authorization with
  | Except.error e => errorResponse e
  | Except.ok decoded => handler decoded

/-- Handler body of `GET /api/protected`. -/
def protectedHandler (decoded : Claims) : Response :=
  ⟨200, protected_route (get_current_user decoded)⟩

/-- Handler body of `GET /api/user/profile`; a `KeyError` on the user
dictionary would surface as a 500. -/
def profileHandler (decoded : Claims) : Response :=
  match get_user_profile (get_current_user decoded) with
  | some body => ⟨200, body⟩
  | none => ⟨500, Json.obj [("detail", Json.str "Internal Server Error")]⟩

/-- An HTTP request as far as this backend inspects it. -/
structure Request where
  method : String
  path : String
  authorization : Option String

/-- The FastAPI application of `main.py`: route dispatch on method and
path; `/` and `/health` have no authentication dependency; the two
`/api` routes are wrapped in the verification dependency chain. -/
def app (st : AppState) (provider : Provider) (req : Request) : Response :=
  if req.path = "/" then
    if req.method = "GET" then ⟨200, read_root⟩
    else ⟨405, Json.obj [("detail", Json.str "Method Not Allowed")]⟩
  else if req.path = "/health" then
    if req.method = "GET" then ⟨200, health_check⟩
    else ⟨405, Json.obj [("detail", Json.str "Method Not Allowed")]⟩
  else if req.path = "/api/protected" then
    if req.method = "GET" then routeProtectedWith protectedHandler st provider req.authorization
    else ⟨405, Json.obj [("detail", Json.str "Method Not Allowed")]⟩
  else if req.path = "/api/user/profile" then
    if req.method = "GET" then routeProtectedWith profileHandler st provider req.authorization
    else ⟨405, Json.obj [("detail", Json.str "Method Not Allowed")]⟩
  else
    ⟨404, Json.obj [("detail", Json.str "Not Found")]⟩

/-- A sample provider for concrete evaluations: accepts one token. -/
def sampleProvider : Provider := fun t =>
  if t = "goodtoken" then Except.ok [("sub", "user123"), ("email", "a@b.c")]
  else Except.error "bad token"

/-- A provider that rejects every token. -/
def failProvider : Provider := fun _ => Except.error "rejected"

/-- The claim set produced by the verification chain for `sampleProvider`'s
one accepted token (the provider claims with `uid` copied from `sub`). -/
def sampleClaims : Claims := [("sub", "user123"), ("email", "a@b.c"), ("uid", "user123")]

deriving instance DecidableEq for Except

/-! Lemmas about association-list lookup and Python dictionary update. -/

theorem alistGet_replace_self (d : Claims) (k v : String)
    (h : (alistGet d k).isSome) : alistGet (dictReplace d k v) k = some v := by
  induction d with
  | nil => simp [alistGet] at h
  | cons p rest ih =>
      obtain ⟨k', v'⟩ := p
      by_cases hk : k' = k
      · simp [dictReplace, hk, alistGet]
      · simp [alistGet, hk] at h
        simp [dictReplace, hk, alistGet]
        exact ih h

theorem alistGet_replace_ne (d : Claims) (k v k₂ : String) (h : ¬ k = k₂) :
    alistGet (dictReplace d k v) k₂ = alistGet d k₂ := by
  induction d with
  | nil => simp [dictReplace]
  | cons p rest ih =>
      obtain ⟨k', v'⟩ := p
      by_cases hk : k' = k
      · subst hk
        simp [dictReplace, alistGet, h]
      · simp [dictReplace, hk, alistGet, ih]

theorem alistGet_append_self (d : Claims) (k v : String) (h : alistGet d k = none) :
    alistGet (d ++ [(k, v)]) k = some v := by
  induction d with
  | nil => simp [alistGet]
  | cons p rest ih =>
      obtain ⟨k', v'⟩ := p
      by_cases hk : k' = k
      · simp [alistGet, hk] at h
      · simp [alistGet, hk] at h ⊢
        exact ih h

theorem alistGet_append_ne (d : Claims) (k v k₂ : String) (h : ¬ k = k₂) :
    alistGet (d ++ [(k, v)]) k₂ = alistGet d k₂ := by
  induction d with
  | nil => simp [alistGet, h]
  | cons p rest ih =>
      obtain ⟨k', v'⟩ := p
      by_cases hk : k' = k₂ <;> simp [alistGet, hk, ih]

theorem dictGet_dictSet_self (d : Claims) (k v : String) :
    dictGet (dictSet d k v) k = some v := by
  unfold dictSet
  by_cases h : (dictGet d k).isSome
  · rw [if_pos h]
    exact alistGet_replace_self d k v h
  · rw [if_neg h]
    exact alistGet_append_self d k v (Option.not_isSome_iff_eq_none.mp h)

theorem dictGet_dictSet_ne (d : Claims) (k v k₂ : String) (h : ¬ k = k₂) :
    dictGet (dictSet d k v) k₂ = dictGet d k₂ := by
  unfold dictSet
  by_cases hs : (dictGet d k).isSome
  · rw [if_pos hs]
    exact alistGet_replace_ne d k v k₂ h
  · rw [if_neg hs]
    exact alistGet_append_ne d k v k₂ h

/-! Lemmas about the verification chain. -/

theorem verify_id_token_uid_eq_sub (st : AppState) (provider : Provider)
    (token : String) (c : Claims) (h : verify_id_token st provider token = Except.ok c) :
    dictGet c "uid" = dictGet c "sub" := by
  unfold verify_id_token at h
  by_cases hi : st.firebaseInitialized
  · rw [if_pos hi] at h
    cases hp : provider token with
    | error e => simp [hp] at h
    | ok decoded =>
        simp [hp] at h
        cases hs : dictGet decoded "sub" with
        | none => simp [hs] at h
        | some s =>
            simp [hs] at h
            by_cases hse : s = ""
            · simp [hse] at h
            · simp [hse] at h
              rw [← h, dictGet_dictSet_self, dictGet_dictSet_ne _ _ _ _ (by decide), hs]
  · simp [hi] at h

theorem resolve_verify_ok (st : AppState) (provider : Provider) (auth : Option String)
    (c : Claims) (h : resolve_verify st provider auth = Except.ok c) :
    ∃ tok, HTTPBearer_call auth = Except.ok tok ∧
      verify_id_token st provider tok = Except.ok c := by
  unfold resolve_verify at h
  cases hb : HTTPBearer_call auth with
  | error e => simp [hb] at h
  | ok tok =>
      rw [hb] at h
      refine ⟨tok, rfl, ?_⟩
      unfold verify_firebase_token at h
      cases hv : verify_id_token st provider tok with
      | ok d =>
          simp [hv] at h
          rw [h]
      | error e => simp [hv] at h

theorem resolve_ok_uid_eq_sub (st : AppState) (provider : Provider)
    (auth : Option String) (c : Claims)
    (h : resolve_verify st provider auth = Except.ok c) :
    dictGet c "uid" = dictGet c "sub" := by
  obtain ⟨tok, _, hv⟩ := resolve_verify_ok st provider auth c h
  exact verify_id_token_uid_eq_sub st provider tok c hv

theorem get_user_profile_of_current (c : Claims) :
    get_user_profile (get_current_user c) = some (jsonOfUser (get_current_user c)) := by
  simp [get_user_profile, get_current_user, alistGet, jsonOfUser, joptField]

/-- C1: for every request to a protected route (`GET /api/protected` or
`GET /api/user/profile`) whose bearer token passes the provider's
verification, the response status is 200 and the `uid` field of the
returned Identity Record equals the `sub` claim of the verified token's
decoded claim set. -/
theorem protected_success_status_and_uid (st : AppState) (provider : Provider)
    (a path : String) (c : Claims)
    (hpath : path = "/api/protected" ∨ path = "/api/user/profile")
    (hv : resolve_verify st provider (some a) = Except.ok c) :
    (app st provider ⟨"GET", path, some a⟩).status = 200 ∧
    alistGet (get_current_user c) "uid" = some (dictGet c "sub") := by
  constructor
  · rcases hpath with hp | hp <;> subst hp <;>
      simp [app, routeProtectedWith, hv, protectedHandler, profileHandler,
            get_user_profile_of_current]
  · simp [get_current_user, alistGet,
          resolve_ok_uid_eq_sub st provider (some a) c hv]

/-- Witness for C1 at a concrete accepted token. -/
theorem protected_success_status_and_uid_witness :
    (app ⟨true, false⟩ sampleProvider
        ⟨"GET", "/api/protected", some "Bearer goodtoken"⟩).status = 200 ∧
    alistGet (get_current_user sampleClaims) "uid" = some (dictGet sampleClaims "sub") :=
  protected_success_status_and_uid ⟨true, false⟩ sampleProvider "Bearer goodtoken"
    "/api/protected" sampleClaims (Or.inl rfl) (by decide)

/-- C2: every failure of `verify_firebase_token` produces exactly one
kind of error: HTTP status 401 with detail equal to the string
`Invalid authentication credentials: ` followed by the underlying
failure's description. -/
theorem verify_failure_single_401 (st : AppState) (provider : Provider)
    (token : String) (e : HTTPError)
    (h : (verify_firebase_token st provider token).1 = Except.error e) :
    e.status_code = 401 ∧
    ∃ reason, verify_id_token st provider token = Except.error reason ∧
      e.detail = "Invalid authentication credentials: " ++ reason := by
  unfold verify_firebase_token at h
  cases hv : verify_id_token st provider token with
  | ok d => simp [hv] at h
  | error r =>
      simp [hv] at h
      exact ⟨by rw [← h], r, rfl, by rw [← h]⟩

/-- Witness for C2 on the uninitialized verification backend. -/
theorem verify_failure_single_401_witness :
    (⟨401, "Invalid authentication credentials: The default Firebase app does not exist"⟩
        : HTTPError).status_code = 401 ∧
    ∃ reason, verify_id_token ⟨false, true⟩ failProvider "sometoken" = Except.error reason ∧
      (⟨401, "Invalid authentication credentials: The default Firebase app does not exist"⟩
          : HTTPError).detail = "Invalid authentication credentials: " ++ reason :=
  verify_failure_single_401 ⟨false, true⟩ failProvider "sometoken"
    ⟨401, "Invalid authentication credentials: The default Firebase app does not exist"⟩
    (by decide)

/-- C3 counterexample: a request to a protected route with no
`Authorization` header is answered with status 403 (FastAPI's
`HTTPBearer` rejection), not 401 as claimed. -/
theorem missing_header_not_401 :
    ¬ (app ⟨true, false⟩ sampleProvider
        ⟨"GET", "/api/protected", none⟩).status = 401 := by decide

/-- C3 amended: for every request to a protected route that carries no
`Authorization` header, the response is 403 with detail
`Not authenticated`, produced by the bearer security scheme. -/
theorem missing_header_403 (st : AppState) (provider : Provider) (path : String)
    (hpath : path = "/api/protected" ∨ path = "/api/user/profile") :
    app st provider ⟨"GET", path, none⟩
      = ⟨403, Json.obj [("detail", Json.str "Not authenticated")]⟩ := by
  rcases hpath with hp | hp <;> subst hp <;>
    simp [app, routeProtectedWith, resolve_verify, HTTPBearer_call,
          get_authorization_scheme_param, errorResponse]

/-- Witness for the amended C3 on the profile route. -/
theorem missing_header_403_witness :
    app ⟨true, false⟩ failProvider ⟨"GET", "/api/user/profile", none⟩
      = ⟨403, Json.obj [("detail", Json.str "Not authenticated")]⟩ :=
  missing_header_403 ⟨true, false⟩ failProvider "/api/user/profile" (Or.inr rfl)

/-- C4: when the verification dependency fails, the router
short-circuits: the response is the AuthError's status and detail, and
it is the same whatever the route handler body is, so no part of the
handler's response construction affects the outcome. -/
theorem verify_failure_shortcircuits (st : AppState) (provider : Provider)
    (auth : Option String) (path : String) (e : HTTPError)
    (hpath : path = "/api/protected" ∨ path = "/api/user/profile")
    (h : resolve_verify st provider auth = Except.error e) :
    (∀ handler : Claims → Response,
        routeProtectedWith handler st provider auth = errorResponse e) ∧
    app st provider ⟨"GET", path, auth⟩ = errorResponse e := by
  constructor
  · intro handler
    simp [routeProtectedWith, h]
  · rcases hpath with hp | hp <;> subst hp <;> simp [app, routeProtectedWith, h]

/-- Witness for C4 on a rejected token. -/
theorem verify_failure_shortcircuits_witness :
    app ⟨true, false⟩ failProvider ⟨"GET", "/api/protected", some "Bearer x"⟩
      = errorResponse ⟨401, "Invalid authentication credentials: rejected"⟩ :=
  (verify_failure_shortcircuits ⟨true, false⟩ failProvider (some "Bearer x")
    "/api/protected" ⟨401, "Invalid authentication credentials: rejected"⟩
    (Or.inl rfl) (by decide)).2

/-- C5 counterexample: with the credential file absent, startup still
succeeds, but a protected-route request without an `Authorization`
header is answered 403, so not every protected-route request returns
401 as claimed. -/
theorem credless_missing_header_not_401 :
    startup false = Except.ok ⟨false, true⟩ ∧
    ¬ (app ⟨false, true⟩ failProvider
        ⟨"GET", "/api/user/profile", none⟩).status = 401 := by
  constructor
  · rfl
  · decide

/-- C5 amended: if the credential file is absent at startup, startup
raises no exception and logs the warning; in the resulting state every
protected-route request that presents a bearer token returns 401
(header-less requests are rejected 403 by the bearer scheme), while
`GET /` and `GET /health` still return their normal responses. -/
theorem credential_absent_behaviour :
    startup false = Except.ok ⟨false, true⟩ ∧
    (∀ (provider : Provider) (a tok path : String),
        (path = "/api/protected" ∨ path = "/api/user/profile") →
        HTTPBearer_call (some a) = Except.ok tok →
        (app ⟨false, true⟩ provider ⟨"GET", path, some a⟩).status = 401) ∧
    (∀ (provider : Provider) (auth : Option String),
        app ⟨false, true⟩ provider ⟨"GET", "/", auth⟩ = ⟨200, read_root⟩ ∧
        app ⟨false, true⟩ provider ⟨"GET", "/health", auth⟩ = ⟨200, health_check⟩) := by
  refine ⟨rfl, ?_, ?_⟩
  · intro provider a tok path hpath hb
    rcases hpath with hp | hp <;> subst hp <;>
      simp [app, routeProtectedWith, resolve_verify, hb, verify_firebase_token,
            verify_id_token, errorResponse]
  · intro provider auth
    constructor <;> simp [app]

/-- Witness for the amended C5 on a concrete bearer request. -/
theorem credential_absent_behaviour_witness :
    (app ⟨false, true⟩ failProvider
        ⟨"GET", "/api/protected", some "Bearer tok"⟩).status = 401 :=
  credential_absent_behaviour.2.1 failProvider "Bearer tok" "tok" "/api/protected"
    (Or.inl rfl) (by decide)

/-- C6: every successfully authenticated `GET /api/user/profile`
response is status 200 with a body holding exactly the four Identity
Record fields `uid`, `email`, `name` and `picture`, each taken from
the token's Identity Record. -/
theorem profile_body_four_fields (st : AppState) (provider : Provider)
    (a : String) (c : Claims)
    (hv : resolve_verify st provider (some a) = Except.ok c) :
    app st provider ⟨"GET", "/api/user/profile", some a⟩
      = ⟨200, Json.obj [("uid", joptField (dictGet c "uid")),
                        ("email", joptField (dictGet c "email")),
                        ("name", joptField (dictGet c "name")),
                        ("picture", joptField (dictGet c "picture"))]⟩ := by
  simp [app, routeProtectedWith, hv, profileHandler, get_user_profile,
        get_current_user, alistGet, jsonOfUser, joptField]

/-- Witness for C6 at a concrete accepted token. -/
theorem profile_body_four_fields_witness :
    app ⟨true, false⟩ sampleProvider ⟨"GET", "/api/user/profile", some "Bearer goodtoken"⟩
      = ⟨200, Json.obj [("uid", joptField (dictGet sampleClaims "uid")),
                        ("email", joptField (dictGet sampleClaims "email")),
                        ("name", joptField (dictGet sampleClaims "name")),
                        ("picture", joptField (dictGet sampleClaims "picture"))]⟩ :=
  profile_body_four_fields ⟨true, false⟩ sampleProvider "Bearer goodtoken"
    sampleClaims (by decide)

/-- C7: `GET /` and `GET /health` return their fixed payloads for every
process state, provider behaviour and `Authorization` header (present,
absent, valid or invalid): authentication is never consulted. -/
theorem unprotected_routes_static (st : AppState) (provider : Provider)
    (auth : Option String) :
    app st provider ⟨"GET", "/", auth⟩
      = ⟨200, Json.obj [("message", Json.str "HealthScan AI Backend API")]⟩ ∧
    app st provider ⟨"GET", "/health", auth⟩
      = ⟨200, Json.obj [("status", Json.str "healthy")]⟩ := by
  constructor <;> simp [app, read_root, health_check]

/-- C8: verification neither mutates the process state nor varies
across calls: after a successful verification, the state is unchanged
and re-running verification in that state returns the same outcome,
hence the same Identity Record. -/
theorem verify_idempotent_stateless (st : AppState) (provider : Provider)
    (token : String) (c : Claims)
    (h : (verify_firebase_token st provider token).1 = Except.ok c) :
    (verify_firebase_token st provider token).2 = st ∧
    verify_firebase_token (verify_firebase_token st provider token).2 provider token
      = verify_firebase_token st provider token ∧
    ∃ c₂, (verify_firebase_token (verify_firebase_token st provider token).2
            provider token).1 = Except.ok c₂ ∧
      get_current_user c₂ = get_current_user c :=
  ⟨rfl, rfl, c, h, rfl⟩

/-- Witness for C8 at a concrete accepted token. -/
theorem verify_idempotent_stateless_witness :
    (verify_firebase_token ⟨true, false⟩ sampleProvider "goodtoken").2 = ⟨true, false⟩ ∧
    verify_firebase_token (verify_firebase_token ⟨true, false⟩ sampleProvider "goodtoken").2
        sampleProvider "goodtoken"
      = verify_firebase_token ⟨true, false⟩ sampleProvider "goodtoken" :=
  ⟨(verify_idempotent_stateless ⟨true, false⟩ sampleProvider "goodtoken" sampleClaims
      (by decide)).1,
   (verify_idempotent_stateless ⟨true, false⟩ sampleProvider "goodtoken" sampleClaims
      (by decide)).2.1⟩

/-- C9: `get_current_user` returns a dictionary whose keys are exactly
`uid`, `email`, `name`, `picture` in that order; each key is present and
bound to the token's claim value or `None` when the claim is missing,
and any other key is absent from the result. -/
theorem get_current_user_exact_keys (td : Claims) :
    (get_current_user td).map Prod.fst = ["uid", "email", "name", "picture"] ∧
    alistGet (get_current_user td) "uid" = some (dictGet td "uid") ∧
    alistGet (get_current_user td) "email" = some (dictGet td "email") ∧
    alistGet (get_current_user td) "name" = some (dictGet td "name") ∧
    alistGet (get_current_user td) "picture" = some (dictGet td "picture") ∧
    ∀ k : String, ¬ k ∈ ["uid", "email", "name", "picture"] →
      alistGet (get_current_user td) k = none := by
  refine ⟨rfl, ?_, ?_, ?_, ?_, ?_⟩
  · simp [get_current_user, alistGet]
  · simp [get_current_user, alistGet]
  · simp [get_current_user, alistGet]
  · simp [get_current_user, alistGet]
  · intro k hk
    simp only [List.mem_cons, List.not_mem_nil, or_false, not_or] at hk
    obtain ⟨h1, h2, h3, h4⟩ := hk
    simp [get_current_user, alistGet, Ne.symm h1, Ne.symm h2, Ne.symm h3, Ne.symm h4]

/-- Witness for C9: an extra claim such as `sub` is dropped. -/
theorem get_current_user_exact_keys_witness :
    (get_current_user sampleClaims).map Prod.fst = ["uid", "email", "name", "picture"] ∧
    alistGet (get_current_user sampleClaims) "sub" = none :=
  ⟨(get_current_user_exact_keys sampleClaims).1,
   (get_current_user_exact_keys sampleClaims).2.2.2.2.2 "sub" (by decide)⟩

/-- C10: for the same verified token, the object under the `user` key
of the `GET /api/protected` body equals the whole `GET /api/user/profile`
body, both being the rendering of the same `get_current_user` result. -/
theorem protected_user_eq_profile_body (st : AppState) (provider : Provider)
    (a : String) (c : Claims)
    (hv : resolve_verify st provider (some a) = Except.ok c) :
    (app st provider ⟨"GET", "/api/protected", some a⟩).body.getField "user"
      = some ((app st provider ⟨"GET", "/api/user/profile", some a⟩).body) ∧
    (app st provider ⟨"GET", "/api/user/profile", some a⟩).body
      = jsonOfUser (get_current_user c) := by
  have hprofile :
      (app st provider ⟨"GET", "/api/user/profile", some a⟩).body
        = jsonOfUser (get_current_user c) := by
    simp [app, routeProtectedWith, hv, profileHandler, get_user_profile_of_current]
  refine ⟨?_, hprofile⟩
  rw [hprofile]
  simp [app, routeProtectedWith, hv, protectedHandler, protected_route,
        Json.getField, alistGet]

/-- Witness for C10 at a concrete accepted token. -/
theorem protected_user_eq_profile_body_witness :
    (app ⟨true, false⟩ sampleProvider
        ⟨"GET", "/api/protected", some "Bearer goodtoken"⟩).body.getField "user"
      = some ((app ⟨true, false⟩ sampleProvider
          ⟨"GET", "/api/user/profile", some "Bearer goodtoken"⟩).body) :=
  (protected_user_eq_profile_body ⟨true, false⟩ sampleProvider "Bearer goodtoken"
    sampleClaims (by decide)).1

end Backend
